import Mathlib

/-!
Layout and numbering of the AMD XDNA accelerator UAPI header `amdxdna_accel.h`.

The header `crates/libamdgpu_top/src/xdna/header/amdxdna_accel.h` holds no
executable code: it is a list of `#define`d constants, of `struct`
declarations and of ioctl request definitions.  The embedding below keeps
that shape.  A `#define NAME value` is a `Define`, a `struct` is a
`StructDecl` whose members are listed in source order (with the `#define`s
that the source writes directly above a member attached to it), and the
layout a C compiler gives to the structs is computed by `layoutHeader`,
which walks the declarations in source order.
-/

namespace AmdxdnaAccel

/-! ## Data model -/

/-- A `#define NAME value` of the header whose value is an integer literal. -/
structure Define where
  name : String
  value : Int
  deriving DecidableEq, Repr

/-- The element types the header's members are declared with: the fixed-width
kernel typedefs, or a previously declared `struct`. -/
inductive CBase where
  | __u8
  | __s8
  | __u16
  | __u32
  | __u64
  | __s64
  | struct (tag : String)
  deriving DecidableEq, Repr

/-- How a member is declared: `T m;`, `T m[len];` or `T m[];`. -/
inductive Declarator where
  | scalar
  | array (len : Nat)
  | flexible
  deriving DecidableEq, Repr

/-- One member of a struct.  `values` are the `#define`s the source writes
inside the struct body directly above the member. -/
structure Member where
  base : CBase
  name : String
  decl : Declarator
  values : List Define
  deriving DecidableEq, Repr

/-- A `struct tag { members };` declaration. -/
structure StructDecl where
  tag : String
  members : List Member
  deriving DecidableEq, Repr

/-- Member `T name;`. -/
def fld (base : CBase) (name : String) : Member :=
  { base := base, name := name, decl := Declarator.scalar, values := [] }

/-- Member `T name[len];`. -/
def arr (base : CBase) (name : String) (len : Nat) : Member :=
  { base := base, name := name, decl := Declarator.array len, values := [] }

/-- Member `T name[];`. -/
def flex (base : CBase) (name : String) : Member :=
  { base := base, name := name, decl := Declarator.flexible, values := [] }

/-- Member `T name;` with `#define`s written directly above it. -/
def sel (values : List Define) (base : CBase) (name : String) : Member :=
  { base := base, name := name, decl := Declarator.scalar, values := values }

/-- The parts of the target C ABI the header's meaning depends on. -/
structure Abi where
  /-- Alignment of `__u64` / `__s64` in bytes. -/
  align64 : Nat
  /-- Width of `unsigned long` in bits. -/
  ulongBits : Nat
  deriving DecidableEq, Repr

/-- The 64-bit rule: 8-byte aligned 64-bit integers, 64-bit `unsigned long`. -/
def lp64 : Abi := { align64 := 8, ulongBits := 64 }

/-- The 32-bit x86 rule: 4-byte aligned 64-bit integers, 32-bit `unsigned long`. -/
def ilp32 : Abi := { align64 := 4, ulongBits := 32 }

/-! ## Constants of the header (lines 21-80) -/

def AMDXDNA_DRIVER_MAJOR : Define := ⟨"AMDXDNA_DRIVER_MAJOR", 1⟩
def AMDXDNA_DRIVER_MINOR : Define := ⟨"AMDXDNA_DRIVER_MINOR", 0⟩

/-- Bitwise complement `~x` of a `w`-bit unsigned value. -/
def bitNot (w : Nat) (x : Nat) : Nat := (2 ^ w - 1 - x % 2 ^ w) % 2 ^ w

/-- The constant `AMDXDNA_INVALID_ADDR`, written `(~0UL)`: the complement of
zero at the width of `unsigned long`. -/
def AMDXDNA_INVALID_ADDR (abi : Abi) : Nat := bitNot abi.ulongBits 0

def AMDXDNA_INVALID_CTX_HANDLE : Define := ⟨"AMDXDNA_INVALID_CTX_HANDLE", 0⟩
def AMDXDNA_INVALID_BO_HANDLE : Define := ⟨"AMDXDNA_INVALID_BO_HANDLE", 0⟩
def AMDXDNA_INVALID_FENCE_HANDLE : Define := ⟨"AMDXDNA_INVALID_FENCE_HANDLE", 0⟩

def POWER_MODE_DEFAULT : Define := ⟨"POWER_MODE_DEFAULT", 0⟩
def POWER_MODE_LOW : Define := ⟨"POWER_MODE_LOW", 1⟩
def POWER_MODE_MEDIUM : Define := ⟨"POWER_MODE_MEDIUM", 2⟩
def POWER_MODE_HIGH : Define := ⟨"POWER_MODE_HIGH", 3⟩
def POWER_MODE_TURBO : Define := ⟨"POWER_MODE_TURBO", 4⟩

def DRM_AMDXDNA_CREATE_CTX : Define := ⟨"DRM_AMDXDNA_CREATE_CTX", 0⟩
def DRM_AMDXDNA_DESTROY_CTX : Define := ⟨"DRM_AMDXDNA_DESTROY_CTX", 1⟩
def DRM_AMDXDNA_CONFIG_CTX : Define := ⟨"DRM_AMDXDNA_CONFIG_CTX", 2⟩
def DRM_AMDXDNA_CREATE_BO : Define := ⟨"DRM_AMDXDNA_CREATE_BO", 3⟩
def DRM_AMDXDNA_GET_BO_INFO : Define := ⟨"DRM_AMDXDNA_GET_BO_INFO", 4⟩
def DRM_AMDXDNA_SYNC_BO : Define := ⟨"DRM_AMDXDNA_SYNC_BO", 5⟩
def DRM_AMDXDNA_EXEC_CMD : Define := ⟨"DRM_AMDXDNA_EXEC_CMD", 6⟩
def DRM_AMDXDNA_GET_INFO : Define := ⟨"DRM_AMDXDNA_GET_INFO", 7⟩
def DRM_AMDXDNA_SET_STATE : Define := ⟨"DRM_AMDXDNA_SET_STATE", 8⟩
def DRM_AMDXDNA_WAIT_CMD : Define := ⟨"DRM_AMDXDNA_WAIT_CMD", 9⟩

def AMDXDNA_DEV_TYPE_UNKNOWN : Define := ⟨"AMDXDNA_DEV_TYPE_UNKNOWN", -1⟩
def AMDXDNA_DEV_TYPE_KMQ : Define := ⟨"AMDXDNA_DEV_TYPE_KMQ", 0⟩
def AMDXDNA_DEV_TYPE_UMQ : Define := ⟨"AMDXDNA_DEV_TYPE_UMQ", 1⟩

def AMDXDNA_QOS_DEFAULT_PRIORITY : Define := ⟨"AMDXDNA_QOS_DEFAULT_PRIORITY", 0⟩
def AMDXDNA_QOS_REALTIME_PRIORITY : Define := ⟨"AMDXDNA_QOS_REALTIME_PRIORITY", 1⟩
def AMDXDNA_QOS_HIGH_PRIORITY : Define := ⟨"AMDXDNA_QOS_HIGH_PRIORITY", 2⟩
def AMDXDNA_QOS_NORMAL_PRIORITY : Define := ⟨"AMDXDNA_QOS_NORMAL_PRIORITY", 3⟩
def AMDXDNA_QOS_LOW_PRIORITY : Define := ⟨"AMDXDNA_QOS_LOW_PRIORITY", 4⟩
/-- Commented in the source as "The maximum number of priority". -/
def AMDXDNA_NUM_PRIORITY : Define := ⟨"AMDXDNA_NUM_PRIORITY", 4⟩

/-! ## Constants defined inside struct bodies -/

def DRM_AMDXDNA_CTX_CONFIG_CU : Define := ⟨"DRM_AMDXDNA_CTX_CONFIG_CU", 0⟩
def DRM_AMDXDNA_CTX_ASSIGN_DBG_BUF : Define := ⟨"DRM_AMDXDNA_CTX_ASSIGN_DBG_BUF", 1⟩
def DRM_AMDXDNA_CTX_REMOVE_DBG_BUF : Define := ⟨"DRM_AMDXDNA_CTX_REMOVE_DBG_BUF", 2⟩

def AMDXDNA_BO_INVALID : Define := ⟨"AMDXDNA_BO_INVALID", 0⟩
def AMDXDNA_BO_SHARE : Define := ⟨"AMDXDNA_BO_SHARE", 1⟩
def AMDXDNA_BO_DEV_HEAP : Define := ⟨"AMDXDNA_BO_DEV_HEAP", 2⟩
def AMDXDNA_BO_DEV : Define := ⟨"AMDXDNA_BO_DEV", 3⟩
def AMDXDNA_BO_CMD : Define := ⟨"AMDXDNA_BO_CMD", 4⟩
def AMDXDNA_BO_DMA : Define := ⟨"AMDXDNA_BO_DMA", 5⟩
def AMDXDNA_BO_GUEST : Define := ⟨"AMDXDNA_BO_GUEST", 6⟩

def SYNC_DIRECT_TO_DEVICE : Define := ⟨"SYNC_DIRECT_TO_DEVICE", 0⟩
def SYNC_DIRECT_FROM_DEVICE : Define := ⟨"SYNC_DIRECT_FROM_DEVICE", 1⟩

def AMDXDNA_CMD_SUBMIT_EXEC_BUF : Define := ⟨"AMDXDNA_CMD_SUBMIT_EXEC_BUF", 0⟩
def AMDXDNA_CMD_SUBMIT_DEPENDENCY : Define := ⟨"AMDXDNA_CMD_SUBMIT_DEPENDENCY", 1⟩
def AMDXDNA_CMD_SUBMIT_SIGNAL : Define := ⟨"AMDXDNA_CMD_SUBMIT_SIGNAL", 2⟩

def AMDXDNA_SENSOR_TYPE_POWER : Define := ⟨"AMDXDNA_SENSOR_TYPE_POWER", 0⟩

def DRM_AMDXDNA_QUERY_AIE_STATUS : Define := ⟨"DRM_AMDXDNA_QUERY_AIE_STATUS", 0⟩
def DRM_AMDXDNA_QUERY_AIE_METADATA : Define := ⟨"DRM_AMDXDNA_QUERY_AIE_METADATA", 1⟩
def DRM_AMDXDNA_QUERY_AIE_VERSION : Define := ⟨"DRM_AMDXDNA_QUERY_AIE_VERSION", 2⟩
def DRM_AMDXDNA_QUERY_CLOCK_METADATA : Define := ⟨"DRM_AMDXDNA_QUERY_CLOCK_METADATA", 3⟩
def DRM_AMDXDNA_QUERY_SENSORS : Define := ⟨"DRM_AMDXDNA_QUERY_SENSORS", 4⟩
def DRM_AMDXDNA_QUERY_HW_CONTEXTS : Define := ⟨"DRM_AMDXDNA_QUERY_HW_CONTEXTS", 5⟩
def DRM_AMDXDNA_READ_AIE_MEM : Define := ⟨"DRM_AMDXDNA_READ_AIE_MEM", 6⟩
def DRM_AMDXDNA_READ_AIE_REG : Define := ⟨"DRM_AMDXDNA_READ_AIE_REG", 7⟩
def DRM_AMDXDNA_QUERY_FIRMWARE_VERSION : Define := ⟨"DRM_AMDXDNA_QUERY_FIRMWARE_VERSION", 8⟩
def DRM_AMDXDNA_GET_POWER_MODE : Define := ⟨"DRM_AMDXDNA_GET_POWER_MODE", 9⟩
def DRM_AMDXDNA_QUERY_TELEMETRY : Define := ⟨"DRM_AMDXDNA_QUERY_TELEMETRY", 10⟩
def DRM_AMDXDNA_GET_FORCE_PREEMPT_STATE : Define := ⟨"DRM_AMDXDNA_GET_FORCE_PREEMPT_STATE", 11⟩

def DRM_AMDXDNA_SET_POWER_MODE : Define := ⟨"DRM_AMDXDNA_SET_POWER_MODE", 0⟩
def DRM_AMDXDNA_WRITE_AIE_MEM : Define := ⟨"DRM_AMDXDNA_WRITE_AIE_MEM", 1⟩
def DRM_AMDXDNA_WRITE_AIE_REG : Define := ⟨"DRM_AMDXDNA_WRITE_AIE_REG", 2⟩
def DRM_AMDXDNA_SET_FORCE_PREEMPT : Define := ⟨"DRM_AMDXDNA_SET_FORCE_PREEMPT", 3⟩

/-! ## Struct declarations (lines 93-575), in source order -/

open CBase

def amdxdna_qos_info : StructDecl :=
  { tag := "amdxdna_qos_info"
    members :=
      [ fld __u32 "gops",
        fld __u32 "fps",
        fld __u32 "dma_bandwidth",
        fld __u32 "latency",
        fld __u32 "frame_exec_time",
        fld __u32 "priority" ] }

def amdxdna_drm_create_ctx : StructDecl :=
  { tag := "amdxdna_drm_create_ctx"
    members :=
      [ fld __u64 "ext",
        fld __u64 "ext_flags",
        fld __u64 "qos_p",
        fld __u32 "umq_bo",
        fld __u32 "log_buf_bo",
        fld __u32 "max_opc",
        fld __u32 "num_tiles",
        fld __u32 "mem_size",
        fld __u32 "umq_doorbell",
        fld __u32 "handle",
        fld __u32 "syncobj_handle" ] }

def amdxdna_drm_destroy_ctx : StructDecl :=
  { tag := "amdxdna_drm_destroy_ctx"
    members :=
      [ fld __u32 "handle",
        fld __u32 "pad" ] }

def amdxdna_cu_config : StructDecl :=
  { tag := "amdxdna_cu_config"
    members :=
      [ fld __u32 "cu_bo",
        fld __u8 "cu_func",
        arr __u8 "pad" 3 ] }

def amdxdna_ctx_param_config_cu : StructDecl :=
  { tag := "amdxdna_ctx_param_config_cu"
    members :=
      [ fld __u16 "num_cus",
        arr __u16 "pad" 3,
        flex (struct "amdxdna_cu_config") "cu_configs" ] }

def amdxdna_drm_config_ctx : StructDecl :=
  { tag := "amdxdna_drm_config_ctx"
    members :=
      [ fld __u32 "handle",
        sel [DRM_AMDXDNA_CTX_CONFIG_CU, DRM_AMDXDNA_CTX_ASSIGN_DBG_BUF,
             DRM_AMDXDNA_CTX_REMOVE_DBG_BUF] __u32 "param_type",
        fld __u64 "param_val",
        fld __u32 "param_val_size",
        fld __u32 "pad" ] }

def amdxdna_bo_va_entry : StructDecl :=
  { tag := "amdxdna_bo_va_entry"
    members :=
      [ fld __u64 "vaddr",
        fld __u64 "len" ] }

def amdxdna_drm_create_bo : StructDecl :=
  { tag := "amdxdna_drm_create_bo"
    members :=
      [ fld __u64 "flags",
        fld __u64 "vaddr",
        fld __u64 "size",
        sel [AMDXDNA_BO_INVALID, AMDXDNA_BO_SHARE, AMDXDNA_BO_DEV_HEAP, AMDXDNA_BO_DEV,
             AMDXDNA_BO_CMD, AMDXDNA_BO_DMA, AMDXDNA_BO_GUEST] __u32 "type",
        fld __u32 "handle" ] }

def amdxdna_drm_get_bo_info : StructDecl :=
  { tag := "amdxdna_drm_get_bo_info"
    members :=
      [ fld __u64 "ext",
        fld __u64 "ext_flags",
        fld __u32 "handle",
        fld __u32 "pad",
        fld __u64 "map_offset",
        fld __u64 "vaddr",
        fld __u64 "xdna_addr" ] }

def amdxdna_drm_sync_bo : StructDecl :=
  { tag := "amdxdna_drm_sync_bo"
    members :=
      [ fld __u32 "handle",
        sel [SYNC_DIRECT_TO_DEVICE, SYNC_DIRECT_FROM_DEVICE] __u32 "direction",
        fld __u64 "offset",
        fld __u64 "size" ] }

def amdxdna_drm_exec_cmd : StructDecl :=
  { tag := "amdxdna_drm_exec_cmd"
    members :=
      [ fld __u64 "ext",
        fld __u64 "ext_flags",
        fld __u32 "ctx",
        sel [AMDXDNA_CMD_SUBMIT_EXEC_BUF, AMDXDNA_CMD_SUBMIT_DEPENDENCY,
             AMDXDNA_CMD_SUBMIT_SIGNAL] __u32 "type",
        fld __u64 "cmd_handles",
        fld __u64 "args",
        fld __u32 "cmd_count",
        fld __u32 "arg_count",
        fld __u64 "seq" ] }

def amdxdna_drm_wait_cmd : StructDecl :=
  { tag := "amdxdna_drm_wait_cmd"
    members :=
      [ fld __u32 "ctx",
        fld __u32 "timeout",
        fld __u64 "seq" ] }

def amdxdna_drm_query_aie_status : StructDecl :=
  { tag := "amdxdna_drm_query_aie_status"
    members :=
      [ fld __u64 "buffer",
        fld __u32 "buffer_size",
        fld __u32 "cols_filled" ] }

def amdxdna_drm_query_aie_version : StructDecl :=
  { tag := "amdxdna_drm_query_aie_version"
    members :=
      [ fld __u32 "major",
        fld __u32 "minor" ] }

def amdxdna_drm_query_aie_tile_metadata : StructDecl :=
  { tag := "amdxdna_drm_query_aie_tile_metadata"
    members :=
      [ fld __u16 "row_count",
        fld __u16 "row_start",
        fld __u16 "dma_channel_count",
        fld __u16 "lock_count",
        fld __u16 "event_reg_count",
        arr __u16 "pad" 3 ] }

def amdxdna_drm_query_aie_metadata : StructDecl :=
  { tag := "amdxdna_drm_query_aie_metadata"
    members :=
      [ fld __u32 "col_size",
        fld __u16 "cols",
        fld __u16 "rows",
        fld (struct "amdxdna_drm_query_aie_version") "version",
        fld (struct "amdxdna_drm_query_aie_tile_metadata") "core",
        fld (struct "amdxdna_drm_query_aie_tile_metadata") "mem",
        fld (struct "amdxdna_drm_query_aie_tile_metadata") "shim" ] }

def amdxdna_drm_query_clock : StructDecl :=
  { tag := "amdxdna_drm_query_clock"
    members :=
      [ arr __u8 "name" 16,
        fld __u32 "freq_mhz",
        fld __u32 "pad" ] }

def amdxdna_drm_query_clock_metadata : StructDecl :=
  { tag := "amdxdna_drm_query_clock_metadata"
    members :=
      [ fld (struct "amdxdna_drm_query_clock") "mp_npu_clock",
        fld (struct "amdxdna_drm_query_clock") "h_clock" ] }

def amdxdna_drm_query_sensor : StructDecl :=
  { tag := "amdxdna_drm_query_sensor"
    members :=
      [ arr __u8 "label" 64,
        fld __u32 "input",
        fld __u32 "max",
        fld __u32 "average",
        fld __u32 "highest",
        arr __u8 "status" 64,
        arr __u8 "units" 16,
        fld __s8 "unitm",
        sel [AMDXDNA_SENSOR_TYPE_POWER] __u8 "type",
        arr __u8 "pad" 6 ] }

def amdxdna_drm_query_ctx : StructDecl :=
  { tag := "amdxdna_drm_query_ctx"
    members :=
      [ fld __u32 "context_id",
        fld __u32 "start_col",
        fld __u32 "num_col",
        fld __u32 "hwctx_id",
        fld __s64 "pid",
        fld __u64 "command_submissions",
        fld __u64 "command_completions",
        fld __u64 "migrations",
        fld __u64 "preemptions",
        fld __u64 "errors",
        fld __u64 "priority" ] }

def amdxdna_drm_aie_mem : StructDecl :=
  { tag := "amdxdna_drm_aie_mem"
    members :=
      [ fld __u32 "col",
        fld __u32 "row",
        fld __u32 "addr",
        fld __u32 "size",
        fld __u64 "buf_p" ] }

def amdxdna_drm_aie_reg : StructDecl :=
  { tag := "amdxdna_drm_aie_reg"
    members :=
      [ fld __u32 "col",
        fld __u32 "row",
        fld __u32 "addr",
        fld __u32 "val" ] }

def amdxdna_drm_get_power_mode : StructDecl :=
  { tag := "amdxdna_drm_get_power_mode"
    members :=
      [ fld __u8 "power_mode",
        arr __u8 "pad" 7 ] }

def amdxdna_drm_query_firmware_version : StructDecl :=
  { tag := "amdxdna_drm_query_firmware_version"
    members :=
      [ fld __u32 "major",
        fld __u32 "minor",
        fld __u32 "patch",
        fld __u32 "build" ] }

def amdxdna_drm_get_force_preempt_state : StructDecl :=
  { tag := "amdxdna_drm_get_force_preempt_state"
    members :=
      [ fld __u8 "state",
        arr __u8 "pad" 7 ] }

def amdxdna_drm_get_info : StructDecl :=
  { tag := "amdxdna_drm_get_info"
    members :=
      [ sel [DRM_AMDXDNA_QUERY_AIE_STATUS, DRM_AMDXDNA_QUERY_AIE_METADATA,
             DRM_AMDXDNA_QUERY_AIE_VERSION, DRM_AMDXDNA_QUERY_CLOCK_METADATA,
             DRM_AMDXDNA_QUERY_SENSORS, DRM_AMDXDNA_QUERY_HW_CONTEXTS,
             DRM_AMDXDNA_READ_AIE_MEM, DRM_AMDXDNA_READ_AIE_REG,
             DRM_AMDXDNA_QUERY_FIRMWARE_VERSION, DRM_AMDXDNA_GET_POWER_MODE,
             DRM_AMDXDNA_QUERY_TELEMETRY, DRM_AMDXDNA_GET_FORCE_PREEMPT_STATE] __u32 "param",
        fld __u32 "buffer_size",
        fld __u64 "buffer" ] }

def amdxdna_drm_set_power_mode : StructDecl :=
  { tag := "amdxdna_drm_set_power_mode"
    members :=
      [ fld __u8 "power_mode",
        arr __u8 "pad" 7 ] }

def amdxdna_drm_set_force_preempt_state : StructDecl :=
  { tag := "amdxdna_drm_set_force_preempt_state"
    members :=
      [ fld __u8 "state",
        arr __u8 "pad" 7 ] }

def amdxdna_drm_set_state : StructDecl :=
  { tag := "amdxdna_drm_set_state"
    members :=
      [ sel [DRM_AMDXDNA_SET_POWER_MODE, DRM_AMDXDNA_WRITE_AIE_MEM,
             DRM_AMDXDNA_WRITE_AIE_REG, DRM_AMDXDNA_SET_FORCE_PREEMPT] __u32 "param",
        fld __u32 "buffer_size",
        fld __u64 "buffer" ] }

/-- Every struct the header declares, in source order. -/
def header : List StructDecl :=
  [ amdxdna_qos_info,
    amdxdna_drm_create_ctx,
    amdxdna_drm_destroy_ctx,
    amdxdna_cu_config,
    amdxdna_ctx_param_config_cu,
    amdxdna_drm_config_ctx,
    amdxdna_bo_va_entry,
    amdxdna_drm_create_bo,
    amdxdna_drm_get_bo_info,
    amdxdna_drm_sync_bo,
    amdxdna_drm_exec_cmd,
    amdxdna_drm_wait_cmd,
    amdxdna_drm_query_aie_status,
    amdxdna_drm_query_aie_version,
    amdxdna_drm_query_aie_tile_metadata,
    amdxdna_drm_query_aie_metadata,
    amdxdna_drm_query_clock,
    amdxdna_drm_query_clock_metadata,
    amdxdna_drm_query_sensor,
    amdxdna_drm_query_ctx,
    amdxdna_drm_aie_mem,
    amdxdna_drm_aie_reg,
    amdxdna_drm_get_power_mode,
    amdxdna_drm_query_firmware_version,
    amdxdna_drm_get_force_preempt_state,
    amdxdna_drm_get_info,
    amdxdna_drm_set_power_mode,
    amdxdna_drm_set_force_preempt_state,
    amdxdna_drm_set_state ]

/-! ## Layout: the natural C rule -/

/-- Size and alignment of a type, in bytes. -/
structure TypeInfo where
  size : Nat
  align : Nat
  deriving DecidableEq, Repr

/-- Where a member was placed. -/
structure FieldLayout where
  name : String
  offset : Nat
  size : Nat
  align : Nat
  deriving DecidableEq, Repr

/-- The layout of one struct: its members' placement, `sizeof` and alignment. -/
structure StructLayout where
  tag : String
  fields : List FieldLayout
  size : Nat
  align : Nat
  deriving DecidableEq, Repr

/-- The struct layouts computed so far, looked up by tag. -/
def findLayout (env : List StructLayout) (tag : String) : Option StructLayout :=
  env.find? (fun s => s.tag == tag)

/-- Size and alignment of an element type.  A struct has the size and the
alignment its own layout gave it; it must have been declared before. -/
def baseInfo (abi : Abi) (env : List StructLayout) : CBase → Option TypeInfo
  | CBase.__u8 => some ⟨1, 1⟩
  | CBase.__s8 => some ⟨1, 1⟩
  | CBase.__u16 => some ⟨2, 2⟩
  | CBase.__u32 => some ⟨4, 4⟩
  | CBase.__u64 => some ⟨8, abi.align64⟩
  | CBase.__s64 => some ⟨8, abi.align64⟩
  | CBase.struct tag => (findLayout env tag).map (fun s => ⟨s.size, s.align⟩)

/-- Size and alignment of a member: an array of `len` elements is `len`
elements long, a flexible array member takes no room in `sizeof`. -/
def memberInfo (abi : Abi) (env : List StructLayout) (m : Member) : Option TypeInfo :=
  (baseInfo abi env m.base).map (fun t =>
    match m.decl with
    | Declarator.scalar => t
    | Declarator.array len => ⟨len * t.size, t.align⟩
    | Declarator.flexible => ⟨0, t.align⟩)

/-- The least multiple of `a` that is at least `off`. -/
def alignUp (off a : Nat) : Nat := (off + a - 1) / a * a

/-- Place members one after the other from offset `off`: each at the next
multiple of its alignment.  Returns the placed members, the end offset and the
largest alignment seen (starting from `al`). -/
def placeMembers (abi : Abi) (env : List StructLayout) :
    Nat → Nat → List Member → Option (List FieldLayout × Nat × Nat)
  | off, al, [] => some ([], off, al)
  | off, al, m :: ms =>
    match memberInfo abi env m with
    | none => none
    | some t =>
      let o := alignUp off t.align
      match placeMembers abi env (o + t.size) (max al t.align) ms with
      | none => none
      | some (fs, e, a) => some (⟨m.name, o, t.size, t.align⟩ :: fs, e, a)

/-- Layout of one struct: members placed from offset 0, the size rounded up
to the struct's alignment (that of its most aligned member). -/
def layoutStruct (abi : Abi) (env : List StructLayout) (d : StructDecl) : Option StructLayout :=
  match placeMembers abi env 0 1 d.members with
  | none => none
  | some (fs, e, a) => some ⟨d.tag, fs, alignUp e a, a⟩

/-- Layout of a list of declarations in source order; `env` holds the structs
laid out so far, which later declarations may use as member types. -/
def layoutDecls (abi : Abi) : List StructLayout → List StructDecl → Option (List StructLayout)
  | env, [] => some env
  | env, d :: ds =>
    match layoutStruct abi env d with
    | none => none
    | some s => layoutDecls abi (env ++ [s]) ds

/-- Layout of the whole header under an ABI. -/
def layoutHeader (abi : Abi) : Option (List StructLayout) :=
  layoutDecls abi [] header

/-- The C operator `sizeof (struct tag)`. -/
def sizeofStruct (abi : Abi) (tag : String) : Option Nat :=
  (layoutHeader abi).bind (fun env => (findLayout env tag).map (fun s => s.size))

/-- The C operator `offsetof (struct tag, member)`. -/
def offsetofMember (abi : Abi) (tag member : String) : Option Nat :=
  (layoutHeader abi).bind (fun env =>
    (findLayout env tag).bind (fun s =>
      (s.fields.find? (fun f => f.name == member)).map (fun f => f.offset)))

/-- The sizes of the members, in order. -/
def StructLayout.memberSizes (s : StructLayout) : List Nat :=
  s.fields.map (fun f => f.size)

/-- The offsets of the members, in order. -/
def StructLayout.memberOffsets (s : StructLayout) : List Nat :=
  s.fields.map (fun f => f.offset)

/-- No implicit padding: every member starts where the members before it end,
the struct ends where its last member ends, and the size is a multiple of the
alignment. -/
def StructLayout.noImplicitPadding (s : StructLayout) : Prop :=
  (∀ i, i < s.fields.length →
      s.memberOffsets.getD i 0 = (s.memberSizes.take i).sum) ∧
  s.size = s.memberSizes.sum ∧
  s.size % s.align = 0

instance (s : StructLayout) : Decidable s.noImplicitPadding := by
  unfold StructLayout.noImplicitPadding
  exact inferInstance

/-- The layout of one declared struct of the header. -/
def layoutOf (abi : Abi) (d : StructDecl) : Option StructLayout :=
  (layoutHeader abi).bind (fun env => findLayout env d.tag)

/-- What an ABI comparison looks at: each member's name, offset and size, and
the size of the struct (not the alignment the struct itself asks for). -/
structure LayoutImage where
  tag : String
  /-- Name, offset and size of each member, in order. -/
  members : List (String × Nat × Nat)
  size : Nat
  deriving DecidableEq, Repr

def StructLayout.image (s : StructLayout) : LayoutImage :=
  { tag := s.tag, members := s.fields.map (fun f => (f.name, f.offset, f.size)), size := s.size }

/-- The member sequence of a layout without the names: widths and offsets in
order, and the total size. -/
def StructLayout.shape (s : StructLayout) : List (Nat × Nat) × Nat :=
  (s.fields.map (fun f => (f.offset, f.size)), s.size)

/-! ## Members -/

/-- The declaration of the member called `name`, when the struct has one. -/
def StructDecl.member (d : StructDecl) (name : String) : Option Member :=
  d.members.find? (fun m => m.name == name)

/-- The type a member is declared with. -/
def StructDecl.memberType (d : StructDecl) (name : String) : Option (CBase × Declarator) :=
  (d.member name).map (fun m => (m.base, m.decl))

/-- The `#define`s written above a member: the values the member selects among. -/
def StructDecl.selectors (d : StructDecl) (name : String) : List Define :=
  ((d.member name).map (fun m => m.values)).getD []

/-- Width in bits of a fixed-width integer type. -/
def CBase.bits : CBase → Option Nat
  | CBase.__u8 => some 8
  | CBase.__s8 => some 8
  | CBase.__u16 => some 16
  | CBase.__u32 => some 32
  | CBase.__u64 => some 64
  | CBase.__s64 => some 64
  | CBase.struct _ => none

/-- Whether a fixed-width integer type is signed. -/
def CBase.isSigned : CBase → Bool
  | CBase.__s8 => true
  | CBase.__s64 => true
  | _ => false

/-- The integer `v` is a value of the integer type `b`. -/
def CBase.representable (b : CBase) (v : Int) : Bool :=
  match b.bits with
  | none => false
  | some k =>
    if b.isSigned then decide (-(2 ^ (k - 1) : Int) ≤ v) && decide (v < 2 ^ (k - 1))
    else decide (0 ≤ v) && decide (v < 2 ^ k)

/-- A member is flat when it is a fixed-width integer or a fixed-length array
of fixed-width integers (padding members are of these kinds). -/
def Member.isFlat (m : Member) : Bool :=
  m.base.bits.isSome && m.decl != Declarator.flexible

/-- A struct is flat when all its members are. -/
def StructDecl.isFlat (d : StructDecl) : Bool :=
  d.members.all Member.isFlat

/-- The members declared with a struct type (by value or as flexible array). -/
def StructDecl.structMembers (d : StructDecl) : List Member :=
  d.members.filter (fun m => !m.base.bits.isSome)

/-- The flexible array members of a struct. -/
def StructDecl.flexibleMembers (d : StructDecl) : List Member :=
  d.members.filter (fun m => m.decl == Declarator.flexible)

/-! ## Ioctl requests (lines 577-615) -/

/-- The request builders of `drm.h` that take a parameter type. -/
inductive DrmBuilder where
  | DRM_IOR
  | DRM_IOW
  | DRM_IOWR
  deriving DecidableEq, Repr

/-- A `#define NAME BUILDER(DRM_COMMAND_BASE + INDEX, struct ARG)` of the header. -/
structure IoctlDefine where
  name : String
  builder : DrmBuilder
  index : Define
  arg : StructDecl
  deriving DecidableEq, Repr

/-- What a request definition expands to, one level down: the builder, the
command number handed to it and the tag of the parameter struct.  The value of
`DRM_COMMAND_BASE` comes from `drm.h`, which is outside the repository, and is
a parameter. -/
structure IoctlRequest where
  builder : DrmBuilder
  nr : Int
  argTag : String
  deriving DecidableEq, Repr

def IoctlDefine.expand (DRM_COMMAND_BASE : Int) (d : IoctlDefine) : IoctlRequest :=
  { builder := d.builder, nr := DRM_COMMAND_BASE + d.index.value, argTag := d.arg.tag }

def DRM_IOCTL_AMDXDNA_CREATE_CTX : IoctlDefine :=
  ⟨"DRM_IOCTL_AMDXDNA_CREATE_CTX", DrmBuilder.DRM_IOWR, DRM_AMDXDNA_CREATE_CTX,
    amdxdna_drm_create_ctx⟩
def DRM_IOCTL_AMDXDNA_DESTROY_CTX : IoctlDefine :=
  ⟨"DRM_IOCTL_AMDXDNA_DESTROY_CTX", DrmBuilder.DRM_IOWR, DRM_AMDXDNA_DESTROY_CTX,
    amdxdna_drm_destroy_ctx⟩
def DRM_IOCTL_AMDXDNA_CONFIG_CTX : IoctlDefine :=
  ⟨"DRM_IOCTL_AMDXDNA_CONFIG_CTX", DrmBuilder.DRM_IOWR, DRM_AMDXDNA_CONFIG_CTX,
    amdxdna_drm_config_ctx⟩
def DRM_IOCTL_AMDXDNA_CREATE_BO : IoctlDefine :=
  ⟨"DRM_IOCTL_AMDXDNA_CREATE_BO", DrmBuilder.DRM_IOWR, DRM_AMDXDNA_CREATE_BO,
    amdxdna_drm_create_bo⟩
def DRM_IOCTL_AMDXDNA_GET_BO_INFO : IoctlDefine :=
  ⟨"DRM_IOCTL_AMDXDNA_GET_BO_INFO", DrmBuilder.DRM_IOWR, DRM_AMDXDNA_GET_BO_INFO,
    amdxdna_drm_get_bo_info⟩
def DRM_IOCTL_AMDXDNA_SYNC_BO : IoctlDefine :=
  ⟨"DRM_IOCTL_AMDXDNA_SYNC_BO", DrmBuilder.DRM_IOWR, DRM_AMDXDNA_SYNC_BO,
    amdxdna_drm_sync_bo⟩
def DRM_IOCTL_AMDXDNA_EXEC_CMD : IoctlDefine :=
  ⟨"DRM_IOCTL_AMDXDNA_EXEC_CMD", DrmBuilder.DRM_IOWR, DRM_AMDXDNA_EXEC_CMD,
    amdxdna_drm_exec_cmd⟩
def DRM_IOCTL_AMDXDNA_WAIT_CMD : IoctlDefine :=
  ⟨"DRM_IOCTL_AMDXDNA_WAIT_CMD", DrmBuilder.DRM_IOWR, DRM_AMDXDNA_WAIT_CMD,
    amdxdna_drm_wait_cmd⟩
def DRM_IOCTL_AMDXDNA_GET_INFO : IoctlDefine :=
  ⟨"DRM_IOCTL_AMDXDNA_GET_INFO", DrmBuilder.DRM_IOWR, DRM_AMDXDNA_GET_INFO,
    amdxdna_drm_get_info⟩
def DRM_IOCTL_AMDXDNA_SET_STATE : IoctlDefine :=
  ⟨"DRM_IOCTL_AMDXDNA_SET_STATE", DrmBuilder.DRM_IOWR, DRM_AMDXDNA_SET_STATE,
    amdxdna_drm_set_state⟩

/-- The ioctl command indices the header defines (lines 50-59), in source order. -/
def commandIndices : List Define :=
  [ DRM_AMDXDNA_CREATE_CTX, DRM_AMDXDNA_DESTROY_CTX, DRM_AMDXDNA_CONFIG_CTX,
    DRM_AMDXDNA_CREATE_BO, DRM_AMDXDNA_GET_BO_INFO, DRM_AMDXDNA_SYNC_BO,
    DRM_AMDXDNA_EXEC_CMD, DRM_AMDXDNA_GET_INFO, DRM_AMDXDNA_SET_STATE,
    DRM_AMDXDNA_WAIT_CMD ]

/-- The ioctl requests the header defines (lines 577-615), in source order. -/
def ioctlDefines : List IoctlDefine :=
  [ DRM_IOCTL_AMDXDNA_CREATE_CTX, DRM_IOCTL_AMDXDNA_DESTROY_CTX,
    DRM_IOCTL_AMDXDNA_CONFIG_CTX, DRM_IOCTL_AMDXDNA_CREATE_BO,
    DRM_IOCTL_AMDXDNA_GET_BO_INFO, DRM_IOCTL_AMDXDNA_SYNC_BO,
    DRM_IOCTL_AMDXDNA_EXEC_CMD, DRM_IOCTL_AMDXDNA_WAIT_CMD,
    DRM_IOCTL_AMDXDNA_GET_INFO, DRM_IOCTL_AMDXDNA_SET_STATE ]

/-- The characters of `s` after its first `n`. -/
def nameAfter (n : Nat) (s : String) : String := String.mk (s.toList.drop n)

/-- The name in lower case. -/
def lowerCase (s : String) : String := String.mk (s.toList.map Char.toLower)

/-- The three names of a request agree: `DRM_IOCTL_AMDXDNA_X` is built from
the index `DRM_AMDXDNA_X` and from `struct amdxdna_drm_x`. -/
def IoctlDefine.sameName (d : IoctlDefine) : Prop :=
  d.name = "DRM_IOCTL_AMDXDNA_" ++ nameAfter 18 d.name ∧
  d.index.name = "DRM_AMDXDNA_" ++ nameAfter 18 d.name ∧
  d.arg.tag = "amdxdna_drm_" ++ lowerCase (nameAfter 18 d.name)

instance (d : IoctlDefine) : Decidable d.sameName := by
  unfold IoctlDefine.sameName
  exact inferInstance

/-! ## QoS priorities (lines 65-80) -/

/-- The QoS priority levels the header defines, in source order. -/
def qosPriorities : List Define :=
  [ AMDXDNA_QOS_DEFAULT_PRIORITY, AMDXDNA_QOS_REALTIME_PRIORITY, AMDXDNA_QOS_HIGH_PRIORITY,
    AMDXDNA_QOS_NORMAL_PRIORITY, AMDXDNA_QOS_LOW_PRIORITY ]

/-- The number of distinct values among a list of constants. -/
def distinctValues (ds : List Define) : Nat :=
  (ds.map (fun d => d.value)).eraseDups.length

/-! ## The CU configuration buffer (lines 140-185) -/

/-- The limit the doc comment of `struct amdxdna_drm_config_ctx` puts on the
buffer `param_val` points to: "the maximum size of the buffer is
4KiB(PAGE_SIZE)". -/
def PAGE_SIZE : Nat := 4 * 1024

/-- Bytes taken by a `struct amdxdna_ctx_param_config_cu` followed by `n`
entries of its flexible array `cu_configs`. -/
def configCuBufferSize (abi : Abi) (n : Nat) : Option Nat :=
  (sizeofStruct abi amdxdna_ctx_param_config_cu.tag).bind (fun h =>
    (sizeofStruct abi amdxdna_cu_config.tag).map (fun e => h + n * e))

/-- Offset of `cu_configs[i]` in that buffer. -/
def cuConfigOffset (abi : Abi) (i : Nat) : Option Nat :=
  (offsetofMember abi amdxdna_ctx_param_config_cu.tag "cu_configs").bind (fun o =>
    (sizeofStruct abi amdxdna_cu_config.tag).map (fun e => o + i * e))

/-- The buffer for `n` CUs is within the documented limit. -/
def configCuFits (abi : Abi) (n : Nat) : Prop :=
  ∃ s, configCuBufferSize abi n = some s ∧ s ≤ PAGE_SIZE

/-! ## Writers and readers of device state (lines 445-575) -/

/-- A SET_STATE selector with the GET_INFO selector that reads the same state
back, and the struct each passes in `buffer`.  The header binds selectors to
structs in its doc comments ("This is used for DRM_AMDXDNA_READ_AIE_MEM and
DRM_AMDXDNA_WRITE_AIE_MEM parameters") and by name. -/
structure StateAccess where
  writer : Define
  writerBuf : StructDecl
  reader : Define
  readerBuf : StructDecl
  deriving DecidableEq, Repr

def stateAccesses : List StateAccess :=
  [ ⟨DRM_AMDXDNA_SET_POWER_MODE, amdxdna_drm_set_power_mode,
     DRM_AMDXDNA_GET_POWER_MODE, amdxdna_drm_get_power_mode⟩,
    ⟨DRM_AMDXDNA_WRITE_AIE_MEM, amdxdna_drm_aie_mem,
     DRM_AMDXDNA_READ_AIE_MEM, amdxdna_drm_aie_mem⟩,
    ⟨DRM_AMDXDNA_WRITE_AIE_REG, amdxdna_drm_aie_reg,
     DRM_AMDXDNA_READ_AIE_REG, amdxdna_drm_aie_reg⟩,
    ⟨DRM_AMDXDNA_SET_FORCE_PREEMPT, amdxdna_drm_set_force_preempt_state,
     DRM_AMDXDNA_GET_FORCE_PREEMPT_STATE, amdxdna_drm_get_force_preempt_state⟩ ]

/-- The types and declarators of the members, in order, without their names. -/
def StructDecl.memberTypes (d : StructDecl) : List (CBase × Declarator) :=
  d.members.map (fun m => (m.base, m.decl))

/-! ## Members the header's doc comments single out -/

/-- The members that carry a userspace address: "Address of QoS info",
"A structure specified by the param_type struct member", "User VA of buffer",
"Array of command handles", "Array of arguments", "The user space buffer",
"The buffer to store read/write data", "A structure specified by the param
struct member". -/
def addressMembers : List (StructDecl × String) :=
  [ (amdxdna_drm_create_ctx, "qos_p"),
    (amdxdna_drm_config_ctx, "param_val"),
    (amdxdna_drm_create_bo, "vaddr"),
    (amdxdna_drm_exec_cmd, "cmd_handles"),
    (amdxdna_drm_exec_cmd, "args"),
    (amdxdna_drm_query_aie_status, "buffer"),
    (amdxdna_drm_aie_mem, "buf_p"),
    (amdxdna_drm_get_info, "buffer"),
    (amdxdna_drm_set_state, "buffer") ]

/-- The members that carry a context, buffer object or syncobj handle. -/
def handleMembers : List (StructDecl × String) :=
  [ (amdxdna_drm_create_ctx, "umq_bo"),
    (amdxdna_drm_create_ctx, "log_buf_bo"),
    (amdxdna_drm_create_ctx, "handle"),
    (amdxdna_drm_create_ctx, "syncobj_handle"),
    (amdxdna_drm_destroy_ctx, "handle"),
    (amdxdna_cu_config, "cu_bo"),
    (amdxdna_drm_config_ctx, "handle"),
    (amdxdna_drm_create_bo, "handle"),
    (amdxdna_drm_get_bo_info, "handle"),
    (amdxdna_drm_sync_bo, "handle"),
    (amdxdna_drm_exec_cmd, "ctx"),
    (amdxdna_drm_wait_cmd, "ctx") ]

/-- The members that hold a device or user address to compare with
`AMDXDNA_INVALID_ADDR`. -/
def deviceAddressMembers : List (StructDecl × String) :=
  [ (amdxdna_drm_get_bo_info, "xdna_addr"),
    (amdxdna_drm_get_bo_info, "vaddr"),
    (amdxdna_drm_create_bo, "vaddr") ]

/-- The handle sentinels of the header (lines 25-27). -/
def handleSentinels : List Define :=
  [ AMDXDNA_INVALID_CTX_HANDLE, AMDXDNA_INVALID_BO_HANDLE, AMDXDNA_INVALID_FENCE_HANDLE ]

/-- The numbers `0, 1, ..., n - 1` as integer constants' values. -/
def upTo (n : Nat) : List Int := (List.range n).map Int.ofNat

/-- No two constants of the list have the same value. -/
def valuesDistinct (ds : List Define) : Prop :=
  ∀ a ∈ ds, ∀ b ∈ ds, a.value = b.value → a = b

instance (ds : List Define) : Decidable (valuesDistinct ds) := by
  unfold valuesDistinct
  exact inferInstance

/-! ## Theorems -/

/-- C1: under the natural C layout rule with 8-byte aligned 64-bit integers,
the header declares 29 structs, every one of them is laid out, every member
sits at a multiple of its alignment, and no struct has implicit padding: each
member's offset is the sum of the sizes of the members before it, the size of
the struct is the sum of its members' sizes and a multiple of its alignment.
The sizes are the ones listed. -/
theorem C1_no_implicit_padding :
    header.length = 29 ∧
    ∃ L, layoutHeader lp64 = some L ∧
      L.map (fun s => s.tag) = header.map (fun d => d.tag) ∧
      (∀ s ∈ L, ∀ f ∈ s.fields, f.offset % f.align = 0) ∧
      (∀ s ∈ L, s.noImplicitPadding) ∧
      L.map (fun s => (s.tag, s.size)) =
        [ ("amdxdna_qos_info", 24),
          ("amdxdna_drm_create_ctx", 56),
          ("amdxdna_drm_destroy_ctx", 8),
          ("amdxdna_cu_config", 8),
          ("amdxdna_ctx_param_config_cu", 8),
          ("amdxdna_drm_config_ctx", 24),
          ("amdxdna_bo_va_entry", 16),
          ("amdxdna_drm_create_bo", 32),
          ("amdxdna_drm_get_bo_info", 48),
          ("amdxdna_drm_sync_bo", 24),
          ("amdxdna_drm_exec_cmd", 56),
          ("amdxdna_drm_wait_cmd", 16),
          ("amdxdna_drm_query_aie_status", 16),
          ("amdxdna_drm_query_aie_version", 8),
          ("amdxdna_drm_query_aie_tile_metadata", 16),
          ("amdxdna_drm_query_aie_metadata", 64),
          ("amdxdna_drm_query_clock", 24),
          ("amdxdna_drm_query_clock_metadata", 48),
          ("amdxdna_drm_query_sensor", 168),
          ("amdxdna_drm_query_ctx", 72),
          ("amdxdna_drm_aie_mem", 24),
          ("amdxdna_drm_aie_reg", 16),
          ("amdxdna_drm_get_power_mode", 8),
          ("amdxdna_drm_query_firmware_version", 16),
          ("amdxdna_drm_get_force_preempt_state", 8),
          ("amdxdna_drm_get_info", 16),
          ("amdxdna_drm_set_power_mode", 8),
          ("amdxdna_drm_set_force_preempt_state", 8),
          ("amdxdna_drm_set_state", 16) ] :=
  ⟨by decide, _, rfl, by decide, by decide, by decide, by decide⟩

/-- Two requests of the header with the same command index are the same
request. -/
theorem ioctl_index_injective :
    ∀ d ∈ ioctlDefines, ∀ e ∈ ioctlDefines, d.index.value = e.index.value → d = e := by
  decide

/-- Two requests of the header with the same parameter struct are the same
request. -/
theorem ioctl_arg_injective :
    ∀ d ∈ ioctlDefines, ∀ e ∈ ioctlDefines, d.arg.tag = e.arg.tag → d = e := by
  decide

/-- C2: the header defines ten command indices, with the values 0 to 9 in the
order CREATE_CTX, DESTROY_CTX, CONFIG_CTX, CREATE_BO, GET_BO_INFO, SYNC_BO,
EXEC_CMD, GET_INFO, SET_STATE, WAIT_CMD, and ten requests; each request
`DRM_IOCTL_AMDXDNA_X` is built with `DRM_IOWR` from `DRM_COMMAND_BASE +
DRM_AMDXDNA_X` and `struct amdxdna_drm_x`; whatever `DRM_COMMAND_BASE` is,
the requests' command numbers are pairwise different and so are their
parameter structs, and every command index is used by a request. -/
theorem C2_ioctl_numbering (DRM_COMMAND_BASE : Int) :
    commandIndices.map (fun c => c.name) =
      [ "DRM_AMDXDNA_CREATE_CTX", "DRM_AMDXDNA_DESTROY_CTX", "DRM_AMDXDNA_CONFIG_CTX",
        "DRM_AMDXDNA_CREATE_BO", "DRM_AMDXDNA_GET_BO_INFO", "DRM_AMDXDNA_SYNC_BO",
        "DRM_AMDXDNA_EXEC_CMD", "DRM_AMDXDNA_GET_INFO", "DRM_AMDXDNA_SET_STATE",
        "DRM_AMDXDNA_WAIT_CMD" ] ∧
    commandIndices.map (fun c => c.value) = [0, 1, 2, 3, 4, 5, 6, 7, 8, 9] ∧
    ioctlDefines.length = 10 ∧
    (∀ d ∈ ioctlDefines,
      d.builder = DrmBuilder.DRM_IOWR ∧ d.index ∈ commandIndices ∧ d.arg ∈ header ∧
      d.sameName ∧
      d.expand DRM_COMMAND_BASE =
        ⟨DrmBuilder.DRM_IOWR, DRM_COMMAND_BASE + d.index.value, d.arg.tag⟩) ∧
    (∀ c ∈ commandIndices, ∃ d ∈ ioctlDefines, d.index = c) ∧
    (∀ d ∈ ioctlDefines, ∀ e ∈ ioctlDefines,
      (d.expand DRM_COMMAND_BASE).nr = (e.expand DRM_COMMAND_BASE).nr → d = e) ∧
    (∀ d ∈ ioctlDefines, ∀ e ∈ ioctlDefines,
      (d.expand DRM_COMMAND_BASE).argTag = (e.expand DRM_COMMAND_BASE).argTag → d = e) := by
  refine ⟨by decide, by decide, by decide, ?_, by decide, ?_, ?_⟩
  · intro d hd
    have h : d.builder = DrmBuilder.DRM_IOWR ∧ d.index ∈ commandIndices ∧ d.arg ∈ header ∧
        d.sameName := by
      revert d
      decide
    refine ⟨h.1, h.2.1, h.2.2.1, h.2.2.2, ?_⟩
    simp [IoctlDefine.expand, h.1]
  · intro d hd e he h
    have h2 : DRM_COMMAND_BASE + d.index.value = DRM_COMMAND_BASE + e.index.value := h
    exact ioctl_index_injective d hd e he (Int.add_left_cancel h2)
  · intro d hd e he h
    exact ioctl_arg_injective d hd e he h

/-- C3, as stated, fails: not every struct of the header is flat.
`amdxdna_drm_query_aie_metadata` has a member of struct type (`version`) and
`amdxdna_ctx_param_config_cu` has a flexible array member (`cu_configs`). -/
theorem C3_not_all_flat :
    ¬ (∀ d ∈ header, d.isFlat = true) ∧
    amdxdna_drm_query_aie_metadata ∈ header ∧
    amdxdna_drm_query_aie_metadata.memberType "version" =
      some (CBase.struct "amdxdna_drm_query_aie_version", Declarator.scalar) ∧
    amdxdna_ctx_param_config_cu ∈ header ∧
    amdxdna_ctx_param_config_cu.memberType "cu_configs" =
      some (CBase.struct "amdxdna_cu_config", Declarator.flexible) := by
  decide

/-- C3, amended: 26 of the 29 structs are flat (every member a fixed-width
integer or a fixed-length array of them).  The three others are
`amdxdna_ctx_param_config_cu`, whose last member `cu_configs` is the only
flexible array member of the header, and `amdxdna_drm_query_aie_metadata` and
`amdxdna_drm_query_clock_metadata`, which hold structs by value (`version`,
`core`, `mem`, `shim`; `mp_npu_clock`, `h_clock`).  Every struct used as a
member type is a flat struct of the header. -/
theorem C3_flat_except_three :
    (header.filter (fun d => d.isFlat)).length = 26 ∧
    header.filter (fun d => !d.isFlat) =
      [ amdxdna_ctx_param_config_cu, amdxdna_drm_query_aie_metadata,
        amdxdna_drm_query_clock_metadata ] ∧
    (header.filter (fun d => !d.flexibleMembers.isEmpty)) = [amdxdna_ctx_param_config_cu] ∧
    amdxdna_ctx_param_config_cu.flexibleMembers.map (fun m => m.name) = ["cu_configs"] ∧
    (amdxdna_ctx_param_config_cu.members.getLast?).map (fun m => m.name) = some "cu_configs" ∧
    amdxdna_ctx_param_config_cu.structMembers.map (fun m => m.name) = ["cu_configs"] ∧
    amdxdna_drm_query_aie_metadata.structMembers.map (fun m => m.name) =
      ["version", "core", "mem", "shim"] ∧
    amdxdna_drm_query_clock_metadata.structMembers.map (fun m => m.name) =
      ["mp_npu_clock", "h_clock"] ∧
    (∀ d ∈ header, ∀ m ∈ d.structMembers,
      ∃ e ∈ header, m.base = CBase.struct e.tag ∧ e.isFlat = true) := by
  decide

/-- C4: every member that carries a userspace address is a `__u64`, and the
layout of the header computed with 64-bit integers aligned to 4 bytes (and a
32-bit `unsigned long`) has, struct by struct, the same member names, offsets
and sizes and the same struct size as the layout computed with 64-bit integers
aligned to 8 bytes. -/
theorem C4_layout_abi_independent :
    (∀ p ∈ addressMembers,
      p.1 ∈ header ∧ p.1.memberType p.2 = some (CBase.__u64, Declarator.scalar)) ∧
    ilp32.align64 = 4 ∧ lp64.align64 = 8 ∧
    ((layoutHeader lp64).map (fun L => L.length)) = some header.length ∧
    (layoutHeader ilp32).map (fun L => L.map StructLayout.image) =
      (layoutHeader lp64).map (fun L => L.map StructLayout.image) := by
  decide

/-- C5: the selector constants written above `amdxdna_drm_get_info.param` are
the twelve from QUERY_AIE_STATUS to GET_FORCE_PREEMPT_STATE with the values 0
to 11, those above `amdxdna_drm_set_state.param` are SET_POWER_MODE,
WRITE_AIE_MEM, WRITE_AIE_REG, SET_FORCE_PREEMPT with the values 0 to 3, those
above `amdxdna_drm_config_ctx.param_type` are CTX_CONFIG_CU,
CTX_ASSIGN_DBG_BUF, CTX_REMOVE_DBG_BUF with the values 0 to 2; within each of
the three, a value belongs to one selector only. -/
theorem C5_selectors_contiguous :
    (amdxdna_drm_get_info.selectors "param").map (fun c => c.name) =
      [ "DRM_AMDXDNA_QUERY_AIE_STATUS", "DRM_AMDXDNA_QUERY_AIE_METADATA",
        "DRM_AMDXDNA_QUERY_AIE_VERSION", "DRM_AMDXDNA_QUERY_CLOCK_METADATA",
        "DRM_AMDXDNA_QUERY_SENSORS", "DRM_AMDXDNA_QUERY_HW_CONTEXTS",
        "DRM_AMDXDNA_READ_AIE_MEM", "DRM_AMDXDNA_READ_AIE_REG",
        "DRM_AMDXDNA_QUERY_FIRMWARE_VERSION", "DRM_AMDXDNA_GET_POWER_MODE",
        "DRM_AMDXDNA_QUERY_TELEMETRY", "DRM_AMDXDNA_GET_FORCE_PREEMPT_STATE" ] ∧
    (amdxdna_drm_get_info.selectors "param").map (fun c => c.value) = upTo 12 ∧
    (amdxdna_drm_set_state.selectors "param").map (fun c => c.name) =
      [ "DRM_AMDXDNA_SET_POWER_MODE", "DRM_AMDXDNA_WRITE_AIE_MEM",
        "DRM_AMDXDNA_WRITE_AIE_REG", "DRM_AMDXDNA_SET_FORCE_PREEMPT" ] ∧
    (amdxdna_drm_set_state.selectors "param").map (fun c => c.value) = upTo 4 ∧
    (amdxdna_drm_config_ctx.selectors "param_type").map (fun c => c.name) =
      [ "DRM_AMDXDNA_CTX_CONFIG_CU", "DRM_AMDXDNA_CTX_ASSIGN_DBG_BUF",
        "DRM_AMDXDNA_CTX_REMOVE_DBG_BUF" ] ∧
    (amdxdna_drm_config_ctx.selectors "param_type").map (fun c => c.value) = upTo 3 ∧
    valuesDistinct (amdxdna_drm_get_info.selectors "param") ∧
    valuesDistinct (amdxdna_drm_set_state.selectors "param") ∧
    valuesDistinct (amdxdna_drm_config_ctx.selectors "param_type") := by
  decide

/-- C6: the three handle sentinels `AMDXDNA_INVALID_CTX_HANDLE`,
`AMDXDNA_INVALID_BO_HANDLE` and `AMDXDNA_INVALID_FENCE_HANDLE` are 0, and
every handle-carrying member is a `__u32`, a type that has the value 0. -/
theorem C6_handle_sentinels_zero :
    AMDXDNA_INVALID_CTX_HANDLE.value = 0 ∧
    AMDXDNA_INVALID_BO_HANDLE.value = 0 ∧
    AMDXDNA_INVALID_FENCE_HANDLE.value = 0 ∧
    (∀ p ∈ handleMembers,
      p.1 ∈ header ∧ p.1.memberType p.2 = some (CBase.__u32, Declarator.scalar)) ∧
    (∀ c ∈ handleSentinels, CBase.__u32.representable c.value = true) := by
  decide

/-- C7: every selector of `amdxdna_drm_set_state.param` is a writer with a
reader among the selectors of `amdxdna_drm_get_info.param`; under both ABIs
the writer's and the reader's buffer structs have the same member sequence
(offsets and widths) and size, and declare the same members.  The power-mode
and force-preempt pairs are one byte followed by seven bytes of padding, size
8; the AIE memory and register pairs share one struct each; and
`amdxdna_drm_get_info` and `amdxdna_drm_set_state` both have `param` at 0,
`buffer_size` at 4, `buffer` at 8 and size 16. -/
theorem C7_writers_match_readers :
    stateAccesses.map (fun a => a.writer) = amdxdna_drm_set_state.selectors "param" ∧
    (∀ a ∈ stateAccesses,
      a.reader ∈ amdxdna_drm_get_info.selectors "param" ∧
      a.writerBuf ∈ header ∧ a.readerBuf ∈ header ∧
      a.writerBuf.members = a.readerBuf.members) ∧
    (∀ abi ∈ [lp64, ilp32], ∀ a ∈ stateAccesses,
      (layoutOf abi a.writerBuf).isSome = true ∧
      (layoutOf abi a.writerBuf).map StructLayout.shape =
        (layoutOf abi a.readerBuf).map StructLayout.shape) ∧
    (∀ abi ∈ [lp64, ilp32],
      ∀ d ∈ [ amdxdna_drm_set_power_mode, amdxdna_drm_get_power_mode,
              amdxdna_drm_set_force_preempt_state, amdxdna_drm_get_force_preempt_state ],
        d.memberTypes = [(CBase.__u8, Declarator.scalar), (CBase.__u8, Declarator.array 7)] ∧
        (layoutOf abi d).map StructLayout.shape = some ([(0, 1), (1, 7)], 8)) ∧
    stateAccesses.map (fun a => (a.writer.name, a.writerBuf.tag, a.reader.name, a.readerBuf.tag)) =
      [ ("DRM_AMDXDNA_SET_POWER_MODE", "amdxdna_drm_set_power_mode",
         "DRM_AMDXDNA_GET_POWER_MODE", "amdxdna_drm_get_power_mode"),
        ("DRM_AMDXDNA_WRITE_AIE_MEM", "amdxdna_drm_aie_mem",
         "DRM_AMDXDNA_READ_AIE_MEM", "amdxdna_drm_aie_mem"),
        ("DRM_AMDXDNA_WRITE_AIE_REG", "amdxdna_drm_aie_reg",
         "DRM_AMDXDNA_READ_AIE_REG", "amdxdna_drm_aie_reg"),
        ("DRM_AMDXDNA_SET_FORCE_PREEMPT", "amdxdna_drm_set_force_preempt_state",
         "DRM_AMDXDNA_GET_FORCE_PREEMPT_STATE", "amdxdna_drm_get_force_preempt_state") ] ∧
    (∀ abi ∈ [lp64, ilp32], ∀ d ∈ [amdxdna_drm_get_info, amdxdna_drm_set_state],
      (layoutOf abi d).map (fun s => (s.fields.map (fun f => (f.name, f.offset)), s.size)) =
        some ([("param", 0), ("buffer_size", 4), ("buffer", 8)], 16)) ∧
    amdxdna_drm_get_info.memberTypes = amdxdna_drm_set_state.memberTypes :=
  ⟨by decide, by decide, by decide, by decide, by decide, by decide, by decide⟩

/-- C8, as stated, fails: the header defines five distinct priority levels
while `AMDXDNA_NUM_PRIORITY` is 4, and `AMDXDNA_QOS_LOW_PRIORITY`, which is 4,
is not below `AMDXDNA_NUM_PRIORITY`. -/
theorem C8_num_priority_not_level_count :
    AMDXDNA_NUM_PRIORITY.value ≠ (distinctValues qosPriorities : Int) ∧
    distinctValues qosPriorities = 5 ∧
    AMDXDNA_NUM_PRIORITY.value = 4 ∧
    AMDXDNA_QOS_LOW_PRIORITY ∈ qosPriorities ∧
    ¬ (AMDXDNA_QOS_LOW_PRIORITY.value < AMDXDNA_NUM_PRIORITY.value) ∧
    ¬ (∀ p ∈ qosPriorities, 0 ≤ p.value ∧ p.value < AMDXDNA_NUM_PRIORITY.value) := by
  decide

/-- C8, amended: `AMDXDNA_NUM_PRIORITY` is the number of distinct priority
levels other than `AMDXDNA_QOS_DEFAULT_PRIORITY` (REALTIME, HIGH, NORMAL,
LOW).  `AMDXDNA_QOS_DEFAULT_PRIORITY` is 0, every other level `p` satisfies
`1 <= p <= AMDXDNA_NUM_PRIORITY`, so `p - 1` is below `AMDXDNA_NUM_PRIORITY`,
and every level satisfies `0 <= p <= AMDXDNA_NUM_PRIORITY`. -/
theorem C8_num_priority_counts_non_default :
    AMDXDNA_NUM_PRIORITY.value =
      (distinctValues (qosPriorities.filter (fun p => p != AMDXDNA_QOS_DEFAULT_PRIORITY)) : Int) ∧
    (qosPriorities.filter (fun p => p != AMDXDNA_QOS_DEFAULT_PRIORITY)).map (fun p => p.name) =
      [ "AMDXDNA_QOS_REALTIME_PRIORITY", "AMDXDNA_QOS_HIGH_PRIORITY",
        "AMDXDNA_QOS_NORMAL_PRIORITY", "AMDXDNA_QOS_LOW_PRIORITY" ] ∧
    AMDXDNA_QOS_DEFAULT_PRIORITY.value = 0 ∧
    (∀ p ∈ qosPriorities, p ≠ AMDXDNA_QOS_DEFAULT_PRIORITY →
      1 ≤ p.value ∧ p.value ≤ AMDXDNA_NUM_PRIORITY.value ∧
      0 ≤ p.value - 1 ∧ p.value - 1 < AMDXDNA_NUM_PRIORITY.value) ∧
    (∀ p ∈ qosPriorities, 0 ≤ p.value ∧ p.value ≤ AMDXDNA_NUM_PRIORITY.value) ∧
    valuesDistinct qosPriorities := by
  decide

/-- The header struct of the CU configuration buffer and one entry are 8 bytes
each, and the entries start at offset 8. -/
theorem config_cu_sizes :
    sizeofStruct lp64 amdxdna_ctx_param_config_cu.tag = some 8 ∧
    sizeofStruct lp64 amdxdna_cu_config.tag = some 8 ∧
    offsetofMember lp64 amdxdna_ctx_param_config_cu.tag "cu_configs" = some 8 ∧
    sizeofStruct ilp32 amdxdna_ctx_param_config_cu.tag = some 8 ∧
    sizeofStruct ilp32 amdxdna_cu_config.tag = some 8 ∧
    offsetofMember ilp32 amdxdna_ctx_param_config_cu.tag "cu_configs" = some 8 := by
  decide

/-- The size of the CU configuration buffer for `n` CUs. -/
theorem configCuBufferSize_eq (n : Nat) : configCuBufferSize lp64 n = some (8 + 8 * n) := by
  simp [configCuBufferSize, config_cu_sizes.1, config_cu_sizes.2.1, Nat.mul_comm]

/-- C9: for every CU count `n` and index `i`, the buffer of
`DRM_AMDXDNA_CTX_CONFIG_CU` takes `8 + 8 * n` bytes and entry `i` is at offset
`8 + 8 * i` (under both ABIs); the buffer is within the documented 4 KiB
exactly when `n <= 511`; `num_cus` is a `__u16`, and some `__u16` value (512,
and 65535) describes a buffer over the limit. -/
theorem C9_config_cu_buffer (n i : Nat) :
    configCuBufferSize lp64 n = some (8 + 8 * n) ∧
    cuConfigOffset lp64 i = some (8 + 8 * i) ∧
    configCuBufferSize ilp32 n = some (8 + 8 * n) ∧
    cuConfigOffset ilp32 i = some (8 + 8 * i) ∧
    PAGE_SIZE = 4096 ∧
    (configCuFits lp64 n ↔ n ≤ 511) ∧
    amdxdna_ctx_param_config_cu.memberType "num_cus" =
      some (CBase.__u16, Declarator.scalar) ∧
    CBase.__u16.representable 512 = true ∧ ¬ configCuFits lp64 512 ∧
    CBase.__u16.representable 65535 = true ∧ ¬ configCuFits lp64 65535 := by
  have hfit : ∀ m, configCuFits lp64 m ↔ m ≤ 511 := by
    intro m
    unfold configCuFits
    rw [configCuBufferSize_eq]
    constructor
    · rintro ⟨s, hs, hle⟩
      have hs2 : 8 + 8 * m = s := Option.some.inj hs
      have hp : PAGE_SIZE = 4096 := by decide
      omega
    · intro hm
      refine ⟨8 + 8 * m, rfl, ?_⟩
      have hp : PAGE_SIZE = 4096 := by decide
      omega
  refine ⟨configCuBufferSize_eq n, ?_, ?_, ?_, by decide, hfit n, by decide, by decide, ?_,
    by decide, ?_⟩
  · simp [cuConfigOffset, config_cu_sizes.2.1, config_cu_sizes.2.2.1, Nat.mul_comm]
  · simp [configCuBufferSize, config_cu_sizes.2.2.2.1, config_cu_sizes.2.2.2.2.1,
      Nat.mul_comm]
  · simp [cuConfigOffset, config_cu_sizes.2.2.2.2.1, config_cu_sizes.2.2.2.2.2, Nat.mul_comm]
  · rw [hfit]
    omega
  · rw [hfit]
    omega

/-- The complement of zero at width `w` is `2 ^ w - 1`. -/
theorem bitNot_zero (w : Nat) : bitNot w 0 = 2 ^ w - 1 := by
  have hpos : 0 < 2 ^ w := Nat.two_pow_pos _
  unfold bitNot
  rw [Nat.zero_mod, Nat.sub_zero]
  exact Nat.mod_eq_of_lt (by omega)

/-- C10: with `w > 0` the width of `unsigned long`, `AMDXDNA_INVALID_ADDR`
(`~0UL`) is `2 ^ w - 1`; it is the all-ones 64-bit value `2 ^ 64 - 1` exactly
when `w = 64`; for `w = 32` it is 4294967295 (0xFFFFFFFF), below the largest
value of a `__u64`; it is not 0, while the handle sentinels are 0; and the
address members it is compared with (`get_bo_info.xdna_addr`,
`get_bo_info.vaddr`, `create_bo.vaddr`) are `__u64`, whose largest value is
`2 ^ 64 - 1`. -/
theorem C10_invalid_addr (abi : Abi) (hw : 0 < abi.ulongBits) :
    AMDXDNA_INVALID_ADDR abi = 2 ^ abi.ulongBits - 1 ∧
    (AMDXDNA_INVALID_ADDR abi = 2 ^ 64 - 1 ↔ abi.ulongBits = 64) ∧
    (abi.ulongBits = 32 →
      AMDXDNA_INVALID_ADDR abi = 4294967295 ∧ AMDXDNA_INVALID_ADDR abi < 2 ^ 64 - 1 ∧
      CBase.__u64.representable (AMDXDNA_INVALID_ADDR abi) = true) ∧
    AMDXDNA_INVALID_ADDR abi ≠ 0 ∧
    (∀ c ∈ handleSentinels, c.value = 0) ∧
    (∀ p ∈ deviceAddressMembers,
      p.1 ∈ header ∧ p.1.memberType p.2 = some (CBase.__u64, Declarator.scalar)) ∧
    CBase.__u64.representable (2 ^ 64 - 1) = true ∧
    CBase.__u64.representable (2 ^ 64) = false := by
  have hv : AMDXDNA_INVALID_ADDR abi = 2 ^ abi.ulongBits - 1 := bitNot_zero abi.ulongBits
  have hpos : 0 < 2 ^ abi.ulongBits := Nat.two_pow_pos _
  have hone : 1 < 2 ^ abi.ulongBits := Nat.one_lt_two_pow (by omega)
  refine ⟨hv, ?_, ?_, ?_, by decide, by decide, by decide, by decide⟩
  · rw [hv]
    constructor
    · intro h
      have h2 : 2 ^ abi.ulongBits = 2 ^ 64 := by
        have h64 : 0 < 2 ^ 64 := Nat.two_pow_pos _
        omega
      exact Nat.pow_right_injective (le_refl 2) h2
    · intro h
      rw [h]
  · intro h32
    rw [hv, h32]
    decide
  · rw [hv]
    omega

/-- C10 at the 32-bit ABI: `AMDXDNA_INVALID_ADDR` is 4294967295, not the
all-ones 64-bit value, and not 0. -/
theorem C10_invalid_addr_ilp32 :
    0 < ilp32.ulongBits ∧
    AMDXDNA_INVALID_ADDR ilp32 = 4294967295 ∧
    AMDXDNA_INVALID_ADDR ilp32 ≠ 2 ^ 64 - 1 ∧
    AMDXDNA_INVALID_ADDR ilp32 ≠ 0 :=
  have h := C10_invalid_addr ilp32 (by decide)
  ⟨by decide, (h.2.2.1 rfl).1, fun e => absurd (h.2.1.mp e) (by decide), h.2.2.2.1⟩

end AmdxdnaAccel
